import Mathlib

/-!
Verification of the Wotan routability-analysis engine (analysis_main.cpp)
against its natural-language specification.

The definitions below are shallow embeddings of the C++ functions in the
repository source.  C `int` becomes `ℤ` (no overflow occurs at the analyzed
sites), C `float`/`double` arithmetic on probabilities and demands becomes
`ℚ`, and functions that throw via WTHROW become `Except String`.
External collaborators that the source only calls (the topological traversal
driver, the probability-model callbacks, the fixed-size priority queue) are
either abstracted as universally quantified parameters or, where a claim is
about their published behaviour, modelled from the spec (marked in the doc
comment).
-/

/-! ## Geometric pruning test (node_has_chance_to_reach_destination) -/

/-- Axis-aligned footprint of an RR node, as read by
`node_has_chance_to_reach_destination` via get_xlow/get_xhigh/get_ylow/get_yhigh. -/
structure RRNodeFootprint where
  xlow : ℤ
  xhigh : ℤ
  ylow : ℤ
  yhigh : ℤ
deriving DecidableEq

/-- Embedding of `node_has_chance_to_reach_destination` (analysis_main.cpp).
The node terminates a path of weight `node_path_weight` (node weight included);
`(destx, desty)` is the destination's single tile.  The source branches first
on `node_xlow == node_xhigh` (node spans in the y-direction, or is a single
tile), then on `node_ylow == node_yhigh` (spans in the x-direction); a node
spanning both directions raises EX_PATH_ENUM, modelled as `none`.  In every
branch the result is `remaining_lower_bound = max (x_diff + y_diff - 1) 0` and
the node is kept iff `node_path_weight + remaining_lower_bound ≤
max_path_weight`; `some true` = kept, `some false` = pruned. -/
def node_has_chance_to_reach_destination (fp : RRNodeFootprint)
    (destx desty node_path_weight max_path_weight : ℤ) : Option Bool :=
  if fp.xlow = fp.xhigh then
    if desty ≤ fp.yhigh ∧ desty ≥ fp.ylow then
      some (decide (node_path_weight + max (|destx - fp.xlow| + 0 - 1) 0 ≤ max_path_weight))
    else if desty > fp.yhigh then
      some (decide (node_path_weight + max (|destx - fp.xlow| + (desty - fp.yhigh) - 1) 0 ≤ max_path_weight))
    else
      some (decide (node_path_weight + max (|destx - fp.xlow| + (fp.ylow - desty) - 1) 0 ≤ max_path_weight))
  else if fp.ylow = fp.yhigh then
    if destx ≤ fp.xhigh ∧ destx ≥ fp.xlow then
      some (decide (node_path_weight + max (0 + (|desty - fp.ylow| - 1) - 1) 0 ≤ max_path_weight))
    else if destx > fp.xhigh then
      some (decide (node_path_weight + max ((destx - fp.xhigh) + |desty - fp.ylow| - 1) 0 ≤ max_path_weight))
    else
      some (decide (node_path_weight + max ((fp.xlow - destx) + |desty - fp.ylow| - 1) 0 ≤ max_path_weight))
  else
    none

/-- Distance from coordinate `c` to the interval `[low, high]` along one axis:
the axis-aligned distance from a footprint to a tile, as the spec words it. -/
def axis_dist (low high c : ℤ) : ℤ :=
  if c < low then low - c else if c > high then c - high else 0

/-- The pruning rule exactly as the claim states it: δ = 1 exactly when the
node overlaps the destination column or row, else δ = 0. -/
def claimed_prune_rule (fp : RRNodeFootprint)
    (destx desty node_path_weight max_path_weight : ℤ) : Prop :=
  node_path_weight +
      max (axis_dist fp.xlow fp.xhigh destx + axis_dist fp.ylow fp.yhigh desty -
        (if (fp.xlow ≤ destx ∧ destx ≤ fp.xhigh) ∨ (fp.ylow ≤ desty ∧ desty ≤ fp.yhigh)
         then 1 else 0)) 0
    > max_path_weight

instance (fp : RRNodeFootprint) (a b c d : ℤ) :
    Decidable (claimed_prune_rule fp a b c d) := by
  unfold claimed_prune_rule; infer_instance

/-- The δ the code actually uses: 2 when the node spans in the x-direction and
the destination column overlaps the node, 1 in every other case. -/
def code_prune_delta (fp : RRNodeFootprint) (destx : ℤ) : ℤ :=
  if fp.xlow ≠ fp.xhigh ∧ fp.xlow ≤ destx ∧ destx ≤ fp.xhigh then 2 else 1

/-- C1 (counterexample): a single-tile node at (0,0) with destination (2,3),
path weight 0 and max path weight 4.  The node does not overlap the
destination column or row, so the claimed rule (δ = 0) computes remaining
lower bound 5 > 4 and prunes, but the code subtracts 1 unconditionally,
computes 4 ≤ 4 and keeps the node. -/
theorem claim_C1_counterexample :
    node_has_chance_to_reach_destination ⟨0, 0, 0, 0⟩ 2 3 0 4 = some true ∧
    claimed_prune_rule ⟨0, 0, 0, 0⟩ 2 3 0 4 := by
  constructor
  · decide
  · decide

/-- C1 (amended): in the forward distance pass a child whose footprint spans at
most one axis is pruned if and only if
`node_path_weight + max (x_diff + y_diff − δ) 0 > max_path_weight`, where
`(x_diff, y_diff)` is the axis-aligned distance from the child's footprint to
the destination tile and δ = 2 when the node is x-spanning with the
destination column overlapping it, and δ = 1 in every other case (the
unconditional `x_diff + y_diff − 1` of the code, doubled by the extra −1 of
the x-spanning overlap branch). -/
theorem claim_C1_amended (fp : RRNodeFootprint)
    (destx desty node_path_weight max_path_weight : ℤ)
    (hwf : fp.xlow ≤ fp.xhigh ∧ fp.ylow ≤ fp.yhigh)
    (hspan : fp.xlow = fp.xhigh ∨ fp.ylow = fp.yhigh) :
    node_has_chance_to_reach_destination fp destx desty node_path_weight max_path_weight
      = some false ↔
    node_path_weight +
        max (axis_dist fp.xlow fp.xhigh destx + axis_dist fp.ylow fp.yhigh desty
              - code_prune_delta fp destx) 0
      > max_path_weight := by
  unfold node_has_chance_to_reach_destination axis_dist code_prune_delta
  rcases hspan with h | h <;>
    split_ifs <;>
    simp only [Option.some.injEq, decide_eq_false_iff_not, not_le, gt_iff_lt,
      abs_eq_max_neg, reduceCtorEq, false_iff, iff_false, not_lt] <;>
    omega

/-- C1 (witness for the amended theorem): a y-spanning node of footprint
x ∈ [2,2], y ∈ [0,5], destination (0,3), path weight 3, bound 4: the node
overlaps the destination row, x_diff = 2, y_diff = 0, δ = 1, and
3 + max(1, 0) = 4 ≤ 4, so the node is kept. -/
theorem claim_C1_witness :
    ¬ (node_has_chance_to_reach_destination ⟨2, 2, 0, 5⟩ 0 3 3 4 = some false) := by
  intro hfalse
  have h := (claim_C1_amended ⟨2, 2, 0, 5⟩ 0 3 3 4 (by constructor <;> decide) (Or.inl rfl)).mp hfalse
  revert h
  decide

/-! ## Distance agreement and max-path-weight tightening
(get_ss_distances_and_adjust_max_path_weight) -/

/-- Ceiling division `⌈a / b⌉` for integers with `b > 0`, written with the
floor division of `ℤ`. -/
def ceil_div (a b : ℤ) : ℤ := (a + b - 1) / b

/-- Embedding of `get_ss_distances_and_adjust_max_path_weight`
(analysis_main.cpp).  The two Dijkstra passes it begins with are abstracted:
the function receives the values the source then reads,
`min_dist_sink = ss_distances[sink].get_source_distance()` and
`min_dist_source = ss_distances[source].get_sink_distance()`.  If they differ
it raises EX_PATH_ENUM; otherwise it returns
`(min (ceil (min_dist * PATH_FLEXIBILITY_FACTOR)) max_path_weight, min_dist)`
with PATH_FLEXIBILITY_FACTOR = 1.3.  `(int)ceil(min_dist * 1.3)` in double
arithmetic equals `⌈13 * min_dist / 10⌉` for every `int` value of `min_dist`:
the relative rounding error of the double nearest to 1.3 is below 2⁻⁵³, which
can neither move the product across an integer when `10 ∤ 13 * min_dist`
(the fractional part is then at least 1/10) nor change the rounded product
when `10 ∣ 13 * min_dist` (the error is under half an ulp). -/
def get_ss_distances_and_adjust_max_path_weight
    (min_dist_sink min_dist_source max_path_weight : ℤ) : Except String (ℤ × ℤ) :=
  if min_dist_sink ≠ min_dist_source then
    .error "Distance to source does not match distance to sink"
  else
    .ok (min (ceil_div (13 * min_dist_sink) 10) max_path_weight, min_dist_sink)

/-- C2: after the bidirectional distance pass, if the forward-computed
source→sink distance differs from the backward-computed sink→source distance
the analysis fails with an invariant violation; otherwise the effective max
path weight is exactly `min (max_path_weight) ⌈min_dist * 1.3⌉` (stated with
the exact rational ceiling `⌈13 * min_dist / 10⌉`). -/
theorem claim_C2 (min_dist_sink min_dist_source max_path_weight : ℤ) :
    get_ss_distances_and_adjust_max_path_weight min_dist_sink min_dist_source max_path_weight
      = if min_dist_sink = min_dist_source then
          .ok (min max_path_weight ⌈(13 * min_dist_sink : ℚ) / 10⌉, min_dist_sink)
        else
          .error "Distance to source does not match distance to sink" := by
  have hceil : ⌈(13 * min_dist_sink : ℚ) / 10⌉ = ceil_div (13 * min_dist_sink) 10 := by
    rw [Int.ceil_eq_iff]
    constructor
    · rw [lt_div_iff₀ (by norm_num : (0:ℚ) < 10)]
      have hz : (ceil_div (13 * min_dist_sink) 10 - 1) * 10 < 13 * min_dist_sink := by
        unfold ceil_div
        omega
      exact_mod_cast hz
    · rw [div_le_iff₀ (by norm_num : (0:ℚ) < 10)]
      have hz : 13 * min_dist_sink ≤ ceil_div (13 * min_dist_sink) 10 * 10 := by
        unfold ceil_div
        omega
      exact_mod_cast hz
  unfold get_ss_distances_and_adjust_max_path_weight
  by_cases h : min_dist_sink = min_dist_source
  · subst h
    simp [hceil, min_comm]
  · simp [h]

/-! ## Core-region workload filter (analyze_test_tile_connections) -/

/-- Topological mode of a global analysis phase (e_topological_mode). -/
inductive ETopologicalMode where
  | ENUMERATE : ETopologicalMode
  | PROBABILITY : ETopologicalMode
deriving DecidableEq

/-- CORE_OFFSET (analysis_main.cpp `#define CORE_OFFSET 3`). -/
def CORE_OFFSET : ℤ := 3

/-- Embedding of the test-tile filter at the head of the workload-construction
loop of `analyze_test_tile_connections` (analysis_main.cpp): the tile at
`(x, y)` is skipped (`continue`) exactly when the phase is PROBABILITY,
`analyze_core` is set, and the tile lies within CORE_OFFSET of a perimeter;
`true` means the tile contributes workload items. -/
def tile_contributes_workload (mode : ETopologicalMode) (analyze_core : Bool)
    (grid_size_x grid_size_y x y : ℤ) : Bool :=
  if mode = .PROBABILITY ∧ analyze_core = true ∧
      (x < CORE_OFFSET ∨ x > grid_size_x - 1 - CORE_OFFSET ∨
       y < CORE_OFFSET ∨ y > grid_size_y - 1 - CORE_OFFSET) then
    false
  else
    true

/-- C3 (counterexample): with `analyze_core = true` on a 12×12 grid, the tile
(0,0) is outside the core yet still contributes workload in the ENUMERATE
phase: the source applies the core filter only under
`topological_mode == PROBABILITY`, so the exclusion does not hold for both
workload-construction phases as claimed. -/
theorem claim_C3_counterexample :
    tile_contributes_workload .ENUMERATE true 12 12 0 0 = true ∧
    ¬ (3 ≤ (0 : ℤ) ∧ (0 : ℤ) ≤ 8) := by
  constructor
  · decide
  · decide

/-- C3 (amended): the core filter applies only to the PROBABILITY
workload-construction phase.  On a 12×12 grid with `analyze_core = true`, a
tile contributes PROBABILITY workload iff x ∈ [3..8] and y ∈ [3..8] (tiles
outside are skipped silently, with no error), while in the ENUMERATE phase
every test tile contributes. -/
theorem claim_C3_amended (x y : ℤ) :
    (tile_contributes_workload .PROBABILITY true 12 12 x y = true ↔
      (3 ≤ x ∧ x ≤ 8) ∧ (3 ≤ y ∧ y ≤ 8)) ∧
    tile_contributes_workload .ENUMERATE true 12 12 x y = true := by
  unfold tile_contributes_workload CORE_OFFSET
  constructor
  · split_ifs with h
    · simp only [false_iff]
      intro hc
      rcases h.2.2 with h3 | h3 | h3 | h3 <;> omega
    · simp only [true_iff]
      have hR : ¬ (x < 3 ∨ x > 12 - 1 - 3 ∨ y < 3 ∨ y > 12 - 1 - 3) :=
        fun hr => h ⟨rfl, rfl, hr⟩
      push_neg at hR
      omega
  · simp

/-! ## Per-length lowest-probability priority queues (analyze_fpga_architecture
and My_Fixed_Size_PQ) -/

/-- Embedding of `int entries_limit = conns_at_length[ilen] *
WORST_ROUTABILITY_PERCENTILE` (analysis_main.cpp, WORST_ROUTABILITY_PERCENTILE
= 0.10).  The C expression multiplies the exact double of `conns_at_length`
by the double nearest to 0.10 and converts to `int`, which truncates toward
zero; for every `int` value of `conns_at_length` the result is
`conns_at_length / 10` rounded toward zero (the rounding error of the double
product is far smaller than the distance from `conns / 10` to the next
integer below `conns_at_length * 0.1` when `10 ∤ conns`, and under half an
ulp when `10 ∣ conns`), i.e. floor division for the non-negative counts. -/
def entries_limit (conns_at_length : ℕ) : ℕ := conns_at_length / 10

/-- Modelled from the spec: `My_Fixed_Size_PQ::push` (wotan_util, not under
src/).  Spec 4.2: "push(x): if size < k, insert; else compare against the
current extreme; retain the k elements that are smallest under the
comparator".  The retained content is modelled as a sorted list: pushing
inserts in order and keeps the k smallest elements. -/
def fpqPush (k : ℕ) (x : ℚ) (s : List ℚ) : List ℚ :=
  (s.orderedInsert (fun a b => a ≤ b) x).take k

/-- The retained content of a `My_Fixed_Size_PQ` of capacity `k` after the
stream `xs` has been pushed into it, first element first. -/
def fpqPushAll (k : ℕ) (xs : List ℚ) : List ℚ :=
  xs.foldl (fun s x => fpqPush k x s) []

/-- Truncating an ordered insert into a `k`-prefix gives the same `k`-prefix
as inserting into the whole list. -/
theorem take_orderedInsert_take (k : ℕ) (s : List ℚ) (x : ℚ) :
    ((s.take k).orderedInsert (fun a b => a ≤ b) x).take k
      = (s.orderedInsert (fun a b => a ≤ b) x).take k := by
  induction s generalizing k with
  | nil => simp
  | cons y t ih =>
    cases k with
    | zero => simp
    | succ k =>
      by_cases hxy : x ≤ y
      · simp only [List.take_succ_cons, List.orderedInsert, if_pos hxy]
        cases k with
        | zero => simp
        | succ k =>
          simp only [List.take_succ_cons, List.take_take]
          have hmin : min k (k + 1) = k := by omega
          rw [hmin]
      · simp only [List.take_succ_cons, List.orderedInsert, if_neg hxy]
        rw [ih]

/-- C4 (counterexample): with 25 connections at a length, the code creates the
per-length PQ with `entries_limit = (int)(25 * 0.10) = 2`, not
`⌈25 × 0.10⌉ = 3` as the claim states: the conversion truncates instead of
taking the ceiling. -/
theorem claim_C4_counterexample :
    (entries_limit 25 : ℤ) ≠ ⌈(25 : ℚ) * (1 / 10)⌉ := by
  have h : ⌈(25 : ℚ) * (1 / 10)⌉ = 3 := by
    rw [Int.ceil_eq_iff]
    norm_num
  rw [h]
  decide

/-- C4 (amended): for every connection length with a non-zero connection
count, the per-length lowest-probability PQ is created with capacity
`k = ⌊#conns_at_ℓ × 0.10⌋` (truncating conversion, not the ceiling), and
under the `less` comparator it retains exactly the k smallest connection
probabilities ever pushed into it: after any stream `xs` of pushes its
content is the k-element prefix of the sorted stream. -/
theorem claim_C4_amended (conns_at_length : ℕ) (xs : List ℚ) :
    (entries_limit conns_at_length : ℤ) = ⌊(conns_at_length : ℚ) * (1 / 10)⌋ ∧
    fpqPushAll (entries_limit conns_at_length) xs
      = (xs.reverse.insertionSort (fun a b => a ≤ b)).take (entries_limit conns_at_length) := by
  constructor
  · rw [eq_comm, Int.floor_eq_iff, mul_one_div]
    constructor
    · rw [le_div_iff₀ (by norm_num : (0:ℚ) < 10)]
      have hz : (entries_limit conns_at_length) * 10 ≤ conns_at_length := by
        unfold entries_limit
        omega
      exact_mod_cast hz
    · rw [div_lt_iff₀ (by norm_num : (0:ℚ) < 10)]
      have hz : conns_at_length < (entries_limit conns_at_length + 1) * 10 := by
        unfold entries_limit
        omega
      exact_mod_cast hz
  · generalize entries_limit conns_at_length = k
    induction xs using List.reverseRecOn with
    | nil => simp [fpqPushAll]
    | append_singleton l a ih =>
      unfold fpqPushAll at ih ⊢
      rw [List.foldl_append]
      simp only [List.foldl_cons, List.foldl_nil]
      rw [ih]
      unfold fpqPush
      rw [take_orderedInsert_take]
      rw [List.reverse_append, List.reverse_singleton, List.singleton_append,
        List.insertionSort]

/-! ## Probability estimation wrapper (estimate_connection_probability) -/

/-- Probability analysis mode (e_probability_mode). -/
inductive EProbabilityMode where
  | PROPAGATE : EProbabilityMode
  | CUTLINE : EProbabilityMode
  | CUTLINE_SIMPLE : EProbabilityMode
  | CUTLINE_RECURSIVE : EProbabilityMode
  | RELIABILITY_POLYNOMIAL : EProbabilityMode
deriving DecidableEq

/-- Embedding of `estimate_connection_probability` (analysis_main.cpp).
`adjusted_max_path_weight` and `min_dist` are the outputs of
`get_ss_distances_and_adjust_max_path_weight`;
`use_routing_node_demand` is `none` when the user option is UNDEFINED.  The
five probability models live in external translation units
(analysis_propagate.cxx, analysis_cutline*.cxx, analysis_reliability_poly.cxx)
and are abstracted by `model_result`, the value the chosen model's traversal
leaves in its result field.  The wrapper initializes the result to 0, runs a
model only when `max_path_weight > 0 && min_dist > 0` (RELIABILITY_POLYNOMIAL
first checks that `use_routing_node_demand` is set), and then raises
EX_PATH_ENUM if the result is above 1 or below 0. -/
def estimate_connection_probability (mode : EProbabilityMode)
    (use_routing_node_demand : Option ℚ) (adjusted_max_path_weight min_dist : ℤ)
    (model_result : EProbabilityMode → ℚ) : Except String ℚ :=
  if adjusted_max_path_weight > 0 ∧ min_dist > 0 then
    if mode = .RELIABILITY_POLYNOMIAL ∧ use_routing_node_demand = none then
      .error "Probability mode was set to RELIABILITY_POLYNOMIAL. But user_opts->use_routing_node_demand was not set!"
    else
      if model_result mode > 1 then
        .error "Got a probability > 1"
      else if model_result mode < 0 then
        .error "Got a probability < 0"
      else
        .ok (model_result mode)
  else
    .ok 0

/-- C5: for every probability model, every returned estimate lies in [0, 1];
a model result outside [0, 1] makes the wrapper fail with an invariant error
instead of returning the value. -/
theorem claim_C5 (mode : EProbabilityMode) (use_routing_node_demand : Option ℚ)
    (adjusted_max_path_weight min_dist : ℤ) (model_result : EProbabilityMode → ℚ) :
    (∀ p : ℚ,
      estimate_connection_probability mode use_routing_node_demand
          adjusted_max_path_weight min_dist model_result = .ok p →
        0 ≤ p ∧ p ≤ 1) ∧
    (adjusted_max_path_weight > 0 ∧ min_dist > 0 →
      ¬ (mode = .RELIABILITY_POLYNOMIAL ∧ use_routing_node_demand = none) →
      (model_result mode > 1 ∨ model_result mode < 0) →
      ∃ msg, estimate_connection_probability mode use_routing_node_demand
          adjusted_max_path_weight min_dist model_result = .error msg) := by
  unfold estimate_connection_probability
  constructor
  · intro p hp
    split_ifs at hp with hg hr h1 h2
    · rw [Except.ok.injEq] at hp
      subst hp
      exact ⟨not_lt.mp h2, not_lt.mp h1⟩
    · rw [Except.ok.injEq] at hp
      subst hp
      exact ⟨le_refl 0, by norm_num⟩
  · intro hg hr hout
    rw [if_pos hg, if_neg hr]
    rcases hout with hout | hout
    · rw [if_pos hout]
      exact ⟨_, rfl⟩
    · rw [if_neg (by linarith), if_pos hout]
      exact ⟨_, rfl⟩

/-- C5 (witness): with the PROPAGATE model returning 1/2 at positive bounds,
the wrapper returns 1/2 which lies in [0, 1]; with a model returning 2 the
wrapper errors. -/
theorem claim_C5_witness :
    (0 ≤ (1 : ℚ) / 2 ∧ (1 : ℚ) / 2 ≤ 1) ∧
    (∃ msg, estimate_connection_probability .PROPAGATE none 5 3 (fun _ => 2) = .error msg) := by
  constructor
  · refine (claim_C5 .PROPAGATE none 5 3 (fun _ => (1 : ℚ) / 2)).1 ((1 : ℚ) / 2) ?_
    unfold estimate_connection_probability
    rw [if_pos (by omega), if_neg (by simp), if_neg (by norm_num), if_neg (by norm_num)]
  · exact (claim_C5 .PROPAGATE none 5 3 (fun _ => 2)).2 (by omega) (by simp) (by norm_num)

/-! ## History-adjusted node demand (get_node_demand_adjusted_for_path_history) -/

/-- Embedding of `get_node_demand_adjusted_for_path_history`
(analysis_main.cpp).  `demand` is `rr_node[node_ind].get_demand(user_opts)`;
`fill_type_present` is false when the fill-type pointer is NULL (simple-graph
mode), in which case the demand is returned unmodified.  `source_hist` and
`sink_hist` are `get_path_count_history` of the node against the source and
sink nodes, and `num_source_pins` / `num_sink_pins` the pin counts of the two
endpoints' pin classes.  The float tolerance 0.00001 is modelled as the exact
rational 1/100000. -/
def get_node_demand_adjusted_for_path_history (demand : ℚ) (fill_type_present : Bool)
    (source_hist sink_hist : ℚ) (num_source_pins num_sink_pins : ℕ) : Except String ℚ :=
  if fill_type_present then
    let source_contribution := source_hist / (num_source_pins : ℚ)
    let sink_contribution := sink_hist / (num_sink_pins : ℚ)
    let modifier := max 0 (max source_contribution sink_contribution)
    if modifier > demand + 1 / 100000 then
      .error "modifier larger than node demand"
    else
      .ok (max 0 (demand - modifier))
  else
    .ok demand

/-- C6: with a non-null fill type and the (non-negative) path-count histories
of the two endpoints, the adjusted demand equals
`max 0 (demand − max source_contribution sink_contribution)` where each
contribution is the endpoint's path-count history divided by its pin-class
pin count; if the subtracted quantity exceeds the current demand by more than
ε = 1/100000 the run fails with an invariant error. -/
theorem claim_C6 (demand source_hist sink_hist : ℚ)
    (num_source_pins num_sink_pins : ℕ)
    (hsrc : 0 ≤ source_hist) (hsink : 0 ≤ sink_hist) :
    (max (source_hist / (num_source_pins : ℚ)) (sink_hist / (num_sink_pins : ℚ))
        ≤ demand + 1 / 100000 →
      get_node_demand_adjusted_for_path_history demand true source_hist sink_hist
          num_source_pins num_sink_pins
        = .ok (max 0 (demand -
            max (source_hist / (num_source_pins : ℚ)) (sink_hist / (num_sink_pins : ℚ))))) ∧
    (max (source_hist / (num_source_pins : ℚ)) (sink_hist / (num_sink_pins : ℚ))
        > demand + 1 / 100000 →
      get_node_demand_adjusted_for_path_history demand true source_hist sink_hist
          num_source_pins num_sink_pins
        = .error "modifier larger than node demand") := by
  have hc1 : 0 ≤ source_hist / (num_source_pins : ℚ) :=
    div_nonneg hsrc (by positivity)
  have hmax : max 0 (max (source_hist / (num_source_pins : ℚ))
      (sink_hist / (num_sink_pins : ℚ)))
      = max (source_hist / (num_source_pins : ℚ)) (sink_hist / (num_sink_pins : ℚ)) := by
    rw [max_eq_right]
    exact le_max_of_le_left hc1
  unfold get_node_demand_adjusted_for_path_history
  simp only [hmax, if_true, ite_true, Bool.true_eq]
  constructor
  · intro hle
    rw [if_neg (not_lt.mpr hle)]
  · intro hgt
    rw [if_pos hgt]

/-- C6 (witness): demand 1, histories 3 and 2 with 4 and 2 pins give
contributions 3/4 and 1, modifier 1 ≤ 1 + ε, and adjusted demand
max 0 (1 − 1) = 0; with demand 1/2 the modifier 1 exceeds 1/2 + ε and the
call fails. -/
theorem claim_C6_witness :
    get_node_demand_adjusted_for_path_history 1 true 3 2 4 2
        = .ok (max 0 (1 - max ((3 : ℚ) / 4) ((2 : ℚ) / 2))) ∧
    get_node_demand_adjusted_for_path_history (1 / 2) true 3 2 4 2
        = .error "modifier larger than node demand" := by
  constructor
  · exact (claim_C6 1 3 2 4 2 (by norm_num) (by norm_num)).1 (by norm_num)
  · exact (claim_C6 (1 / 2) 3 2 4 2 (by norm_num) (by norm_num)).2 (by norm_num)

/-! ## Scaled starting source paths (analyze_connection and
enumerate_connection_paths) -/

/-- Embedding of the scaling factor `analyze_connection` computes for the
ENUMERATE phase: `(float)sinks * probability * length_prob /
(float)number_conns_at_length`, where in ENUMERATE mode `sinks = num_sinks`
and `probability = sum_of_source_probabilities`. -/
def scaling_factor_for_enumerate (num_sinks : ℕ)
    (sum_of_source_probabilities length_prob : ℚ) (number_conns_at_length : ℕ) : ℚ :=
  (num_sinks : ℚ) * sum_of_source_probabilities * length_prob / (number_conns_at_length : ℚ)

/-- Embedding of the `scaled_starting_source_paths` computation of
`enumerate_connection_paths` (analysis_main.cpp): `num_enumerated` is the
number of paths the backward pass found from the source
(`buckets.get_num_paths`), and UNDEFINED = −1 marks the simple-graph caller
that passes no scaling factor. -/
def scaled_starting_source_paths (scaling_factor num_enumerated : ℚ) : ℚ :=
  if num_enumerated > 0 then
    if scaling_factor ≠ -1 then scaling_factor / num_enumerated else 1
  else 0

/-- C7: during ENUMERATE the forward traversal's starting source bucket value
equals `(length_prob × num_sinks × Σpin_probs) / (num_conns_at_ℓ × num_paths)`
when the backward pass enumerated `num_paths > 0` paths from the source, and
equals 0 when `num_paths` is 0 (probabilities are non-negative, so the
computed scaling factor never collides with the UNDEFINED sentinel −1). -/
theorem claim_C7 (num_sinks : ℕ) (sum_of_source_probabilities length_prob : ℚ)
    (number_conns_at_length : ℕ) (num_enumerated : ℚ)
    (hssp : 0 ≤ sum_of_source_probabilities) (hlp : 0 ≤ length_prob) :
    (num_enumerated > 0 →
      scaled_starting_source_paths
          (scaling_factor_for_enumerate num_sinks sum_of_source_probabilities
            length_prob number_conns_at_length) num_enumerated
        = length_prob * (num_sinks : ℚ) * sum_of_source_probabilities /
            ((number_conns_at_length : ℚ) * num_enumerated)) ∧
    (num_enumerated = 0 →
      scaled_starting_source_paths
          (scaling_factor_for_enumerate num_sinks sum_of_source_probabilities
            length_prob number_conns_at_length) num_enumerated
        = 0) := by
  constructor
  · intro hne
    have hsf : 0 ≤ scaling_factor_for_enumerate num_sinks sum_of_source_probabilities
        length_prob number_conns_at_length := by
      unfold scaling_factor_for_enumerate
      positivity
    unfold scaled_starting_source_paths
    rw [if_pos hne, if_pos (by intro h; rw [h] at hsf; linarith)]
    unfold scaling_factor_for_enumerate
    rw [div_div]
    ring_nf
  · intro hz
    unfold scaled_starting_source_paths
    rw [if_neg (by rw [hz]; exact lt_irrefl 0)]

/-- C7 (witness): 2 sinks, Σpin_probs = 1/2, length_prob = 1/4, 8 connections
at the length and 4 enumerated paths give starting bucket value
(1/4 × 2 × 1/2) / (8 × 4) = 1/128; with 0 enumerated paths the start is 0. -/
theorem claim_C7_witness :
    scaled_starting_source_paths (scaling_factor_for_enumerate 2 (1 / 2) (1 / 4) 8) 4
        = (1 : ℚ) / 4 * 2 * (1 / 2) / (8 * 4) ∧
    scaled_starting_source_paths (scaling_factor_for_enumerate 2 (1 / 2) (1 / 4) 8) 0
        = 0 := by
  constructor
  · have h := (claim_C7 2 (1 / 2) (1 / 4) 8 4 (by norm_num) (by norm_num)).1 (by norm_num)
    rw [h]
    norm_num
  · exact (claim_C7 2 (1 / 2) (1 / 4) 8 0 (by norm_num) (by norm_num)).2 rfl

/-! ## Per-connection state cleanup (clean_node_data_structs) -/

/-- Per-node, per-thread distance state (SS_Distances, wotan_types): the four
distance/hop fields and the four visited flags read and written by
analysis_main.cpp.  UNDEFINED distances are −1. -/
structure SS_Distances where
  source_distance : ℤ := -1
  sink_distance : ℤ := -1
  source_hops : ℤ := -1
  sink_hops : ℤ := -1
  visited_from_source : Bool := false
  visited_from_sink : Bool := false
  visited_from_source_hops : Bool := false
  visited_from_sink_hops : Bool := false
deriving DecidableEq

/-- Modelled from the spec: `SS_Distances::clear` (wotan_types, not under
src/).  Spec 3: "clearing resets all fields", so the cleared state is the
freshly-allocated one. -/
def SS_Distances.clear : SS_Distances := {}

/-- Per-node topological-traversal state (Node_Topological_Info, wotan_types)
as visible to `clean_node_topo_inf`: the was_visited flag and the two bucket
arrays. -/
structure Node_Topological_Info where
  was_visited : Bool := false
  source_buckets : List ℚ := []
  sink_buckets : List ℚ := []
deriving DecidableEq

/-- Modelled from the spec: `Node_Topological_Info::clear` (wotan_types, not
under src/).  Spec 4.11: "if topological buckets have been touched, zero just
the used entries" and reset the visited mark; zeroing the used entries leaves
every entry of the bucket arrays zero. -/
def Node_Topological_Info.clear (t : Node_Topological_Info) : Node_Topological_Info :=
  { was_visited := false
    source_buckets := t.source_buckets.map (fun _ => 0)
    sink_buckets := t.sink_buckets.map (fun _ => 0) }

/-- Embedding of `clean_ss_distances` (analysis_main.cpp): for each node index
recorded in `nodes_visited`, the SS_Distances entry is cleared if its
visited_from_source or visited_from_sink flag is set. -/
def clean_ss_distances (ss_distances : ℕ → SS_Distances) (nodes_visited : List ℕ) :
    ℕ → SS_Distances :=
  nodes_visited.foldl
    (fun acc node_ind =>
      if (acc node_ind).visited_from_source || (acc node_ind).visited_from_sink then
        Function.update acc node_ind SS_Distances.clear
      else
        acc)
    ss_distances

/-- Embedding of `clean_node_topo_inf` (analysis_main.cpp): for each node index
recorded in `nodes_visited`, the Node_Topological_Info entry is cleared if its
was_visited flag is set.  The `max_path_weight` argument of the source is kept
for fidelity; the live code calls `clear()` and does not use it. -/
def clean_node_topo_inf (node_topo_inf : ℕ → Node_Topological_Info)
    (nodes_visited : List ℕ) (max_path_weight : ℤ) : ℕ → Node_Topological_Info :=
  nodes_visited.foldl
    (fun acc node_ind =>
      if (acc node_ind).was_visited then
        Function.update acc node_ind (acc node_ind).clear
      else
        acc)
    node_topo_inf

/-- Embedding of `clean_node_data_structs` (analysis_main.cpp): clean the
distance state, clean the topological state, then truncate `nodes_visited`. -/
def clean_node_data_structs (nodes_visited : List ℕ)
    (ss_distances : ℕ → SS_Distances) (node_topo_inf : ℕ → Node_Topological_Info)
    (max_path_weight : ℤ) :
    (ℕ → SS_Distances) × (ℕ → Node_Topological_Info) × List ℕ :=
  (clean_ss_distances ss_distances nodes_visited,
   clean_node_topo_inf node_topo_inf nodes_visited max_path_weight,
   [])

/-- Pointwise characterization of `clean_ss_distances`: a node's entry is
cleared exactly when the node is in the visited list with a distance-visited
flag set, and is untouched otherwise. -/
theorem clean_ss_distances_apply (nodes_visited : List ℕ)
    (ss_distances : ℕ → SS_Distances) (m : ℕ) :
    clean_ss_distances ss_distances nodes_visited m
      = if m ∈ nodes_visited ∧
            ((ss_distances m).visited_from_source || (ss_distances m).visited_from_sink) = true
        then SS_Distances.clear
        else ss_distances m := by
  induction nodes_visited generalizing ss_distances with
  | nil => simp [clean_ss_distances]
  | cons n t ih =>
    unfold clean_ss_distances at ih ⊢
    simp only [List.foldl_cons]
    rw [ih]
    by_cases hg : ((ss_distances n).visited_from_source || (ss_distances n).visited_from_sink) = true
    · rw [if_pos hg]
      by_cases hmn : m = n
      · subst hmn
        simp [Function.update_same, SS_Distances.clear, hg]
      · simp only [Function.update_noteq hmn]
        by_cases hmt : m ∈ t
        · simp [hmt, List.mem_cons]
        · simp only [hmt, false_and, if_neg, List.mem_cons]
          by_cases hflag : ((ss_distances m).visited_from_source ||
              (ss_distances m).visited_from_sink) = true
          · simp [hmn, hmt, hflag]
          · simp [hmn, hmt, hflag]
    · rw [if_neg hg]
      by_cases hmn : m = n
      · subst hmn
        simp only [List.mem_cons, true_or, true_and, eq_self_iff_true]
        by_cases hmt : m ∈ t
        · simp [hmt, hg]
        · simp [hmt, hg]
      · simp [List.mem_cons, hmn]

/-- Pointwise characterization of `clean_node_topo_inf`: a node's entry is
cleared exactly when the node is in the visited list with was_visited set. -/
theorem clean_node_topo_inf_apply (nodes_visited : List ℕ)
    (node_topo_inf : ℕ → Node_Topological_Info) (max_path_weight : ℤ) (m : ℕ) :
    clean_node_topo_inf node_topo_inf nodes_visited max_path_weight m
      = if m ∈ nodes_visited ∧ (node_topo_inf m).was_visited = true
        then (node_topo_inf m).clear
        else node_topo_inf m := by
  induction nodes_visited generalizing node_topo_inf with
  | nil => simp [clean_node_topo_inf]
  | cons n t ih =>
    unfold clean_node_topo_inf at ih ⊢
    simp only [List.foldl_cons]
    rw [ih]
    by_cases hg : (node_topo_inf n).was_visited = true
    · rw [if_pos hg]
      by_cases hmn : m = n
      · subst hmn
        simp [Function.update_same, Node_Topological_Info.clear, hg]
      · simp only [Function.update_noteq hmn]
        by_cases hmt : m ∈ t
        · simp [hmt, List.mem_cons]
        · by_cases hflag : (node_topo_inf m).was_visited = true
          · simp [hmn, hmt, hflag]
          · simp [hmn, hmt, hflag]
    · rw [if_neg hg]
      by_cases hmn : m = n
      · subst hmn
        by_cases hmt : m ∈ t
        · simp [hmt, hg]
        · simp [hmt, hg]
      · simp [List.mem_cons, hmn]

/-- After `clean_ss_distances`, a visited node whose hop-visited flags imply a
distance-visited flag (the program invariant at cleanup time) has all four
visited flags false. -/
theorem cleaned_flags_false (nodes_visited : List ℕ) (ss_distances : ℕ → SS_Distances)
    (n : ℕ) (hn : n ∈ nodes_visited)
    (hhop : ((ss_distances n).visited_from_source_hops || (ss_distances n).visited_from_sink_hops) = true →
            ((ss_distances n).visited_from_source || (ss_distances n).visited_from_sink) = true) :
    (clean_ss_distances ss_distances nodes_visited n).visited_from_source = false ∧
    (clean_ss_distances ss_distances nodes_visited n).visited_from_sink = false ∧
    (clean_ss_distances ss_distances nodes_visited n).visited_from_source_hops = false ∧
    (clean_ss_distances ss_distances nodes_visited n).visited_from_sink_hops = false := by
  rw [clean_ss_distances_apply]
  by_cases hg : ((ss_distances n).visited_from_source || (ss_distances n).visited_from_sink) = true
  · rw [if_pos ⟨hn, hg⟩]
    exact ⟨rfl, rfl, rfl, rfl⟩
  · rw [if_neg (fun hc => hg hc.2)]
    have hgf : ((ss_distances n).visited_from_source || (ss_distances n).visited_from_sink) = false :=
      Bool.eq_false_iff.mpr hg
    have hhf : ((ss_distances n).visited_from_source_hops ||
        (ss_distances n).visited_from_sink_hops) = false := by
      cases hb : ((ss_distances n).visited_from_source_hops ||
          (ss_distances n).visited_from_sink_hops)
      · rfl
      · exact absurd (hhop hb) hg
    rcases Bool.or_eq_false_iff.mp hgf with ⟨h1, h2⟩
    rcases Bool.or_eq_false_iff.mp hhf with ⟨h3, h4⟩
    exact ⟨h1, h2, h3, h4⟩

/-- After `clean_node_topo_inf`, a visited node whose buckets were only
touched if was_visited was set (the program invariant at cleanup time) has
all bucket entries zero. -/
theorem cleaned_buckets_zero (nodes_visited : List ℕ)
    (node_topo_inf : ℕ → Node_Topological_Info) (max_path_weight : ℤ) (n : ℕ)
    (hn : n ∈ nodes_visited)
    (htn : (node_topo_inf n).was_visited = false →
      (∀ q ∈ (node_topo_inf n).source_buckets, q = 0) ∧
      (∀ q ∈ (node_topo_inf n).sink_buckets, q = 0)) :
    (∀ q ∈ (clean_node_topo_inf node_topo_inf nodes_visited max_path_weight n).source_buckets, q = 0) ∧
    (∀ q ∈ (clean_node_topo_inf node_topo_inf nodes_visited max_path_weight n).sink_buckets, q = 0) := by
  rw [clean_node_topo_inf_apply]
  by_cases hv : (node_topo_inf n).was_visited = true
  · rw [if_pos ⟨hn, hv⟩]
    unfold Node_Topological_Info.clear
    constructor <;>
      · intro q hq
        simp only [List.mem_map] at hq
        obtain ⟨a, _, ha⟩ := hq
        exact ha.symm
  · rw [if_neg (fun hc => hv hc.2)]
    exact htn (Bool.eq_false_iff.mpr hv)

/-- C8: after `clean_node_data_structs` runs at the end of a connection
analysis, every node recorded in `nodes_visited` has all four visited flags
false and all touched bucket entries zero, and `nodes_visited` itself is
empty.  The two hypotheses are the program invariants in force when cleanup
runs: the hop passes mark only nodes that pass `is_legal` (which requires
both distance-visited flags) or the endpoints of the passes themselves, so a
hop-visited node always carries a distance-visited flag; and the traversal
sets was_visited on every node whose buckets it touches, so an unvisited
node's buckets are still all zero. -/
theorem claim_C8 (nodes_visited : List ℕ) (ss_distances : ℕ → SS_Distances)
    (node_topo_inf : ℕ → Node_Topological_Info) (max_path_weight : ℤ)
    (hhops : ∀ n ∈ nodes_visited,
      ((ss_distances n).visited_from_source_hops || (ss_distances n).visited_from_sink_hops) = true →
      ((ss_distances n).visited_from_source || (ss_distances n).visited_from_sink) = true)
    (htouch : ∀ n ∈ nodes_visited, (node_topo_inf n).was_visited = false →
      (∀ q ∈ (node_topo_inf n).source_buckets, q = 0) ∧
      (∀ q ∈ (node_topo_inf n).sink_buckets, q = 0)) :
    (∀ n ∈ nodes_visited,
      ((clean_node_data_structs nodes_visited ss_distances node_topo_inf max_path_weight).1 n).visited_from_source = false ∧
      ((clean_node_data_structs nodes_visited ss_distances node_topo_inf max_path_weight).1 n).visited_from_sink = false ∧
      ((clean_node_data_structs nodes_visited ss_distances node_topo_inf max_path_weight).1 n).visited_from_source_hops = false ∧
      ((clean_node_data_structs nodes_visited ss_distances node_topo_inf max_path_weight).1 n).visited_from_sink_hops = false ∧
      (∀ q ∈ ((clean_node_data_structs nodes_visited ss_distances node_topo_inf max_path_weight).2.1 n).source_buckets, q = 0) ∧
      (∀ q ∈ ((clean_node_data_structs nodes_visited ss_distances node_topo_inf max_path_weight).2.1 n).sink_buckets, q = 0)) ∧
    (clean_node_data_structs nodes_visited ss_distances node_topo_inf max_path_weight).2.2 = [] := by
  refine ⟨fun n hn => ?_, rfl⟩
  have h1 := cleaned_flags_false nodes_visited ss_distances n hn (hhops n hn)
  have h2 := cleaned_buckets_zero nodes_visited node_topo_inf max_path_weight n hn (htouch n hn)
  exact ⟨h1.1, h1.2.1, h1.2.2.1, h1.2.2.2, h2.1, h2.2⟩

/-- C8 (witness): one visited node (index 0) that the distance pass and the
traversal both touched; after cleanup its flags are all false, its buckets
are zero and the visited list is empty. -/
theorem claim_C8_witness :
    (∀ n ∈ [0],
      ((clean_node_data_structs [0]
          (fun k => if k = 0 then
            { visited_from_source := true, visited_from_source_hops := true } else {})
          (fun k => if k = 0 then
            { was_visited := true, source_buckets := [3, 5], sink_buckets := [2] } else {})
          7).1 n).visited_from_source = false ∧
      ((clean_node_data_structs [0]
          (fun k => if k = 0 then
            { visited_from_source := true, visited_from_source_hops := true } else {})
          (fun k => if k = 0 then
            { was_visited := true, source_buckets := [3, 5], sink_buckets := [2] } else {})
          7).1 n).visited_from_sink = false ∧
      ((clean_node_data_structs [0]
          (fun k => if k = 0 then
            { visited_from_source := true, visited_from_source_hops := true } else {})
          (fun k => if k = 0 then
            { was_visited := true, source_buckets := [3, 5], sink_buckets := [2] } else {})
          7).1 n).visited_from_source_hops = false ∧
      ((clean_node_data_structs [0]
          (fun k => if k = 0 then
            { visited_from_source := true, visited_from_source_hops := true } else {})
          (fun k => if k = 0 then
            { was_visited := true, source_buckets := [3, 5], sink_buckets := [2] } else {})
          7).1 n).visited_from_sink_hops = false ∧
      (∀ q ∈ ((clean_node_data_structs [0]
          (fun k => if k = 0 then
            { visited_from_source := true, visited_from_source_hops := true } else {})
          (fun k => if k = 0 then
            { was_visited := true, source_buckets := [3, 5], sink_buckets := [2] } else {})
          7).2.1 n).source_buckets, q = 0) ∧
      (∀ q ∈ ((clean_node_data_structs [0]
          (fun k => if k = 0 then
            { visited_from_source := true, visited_from_source_hops := true } else {})
          (fun k => if k = 0 then
            { was_visited := true, source_buckets := [3, 5], sink_buckets := [2] } else {})
          7).2.1 n).sink_buckets, q = 0)) ∧
    (clean_node_data_structs [0]
        (fun k => if k = 0 then
          { visited_from_source := true, visited_from_source_hops := true } else {})
        (fun k => if k = 0 then
          { was_visited := true, source_buckets := [3, 5], sink_buckets := [2] } else {})
        7).2.2 = [] :=
  claim_C8 [0] _ _ 7 (by decide) (by decide)

/-! ## Shared connection counters (Analysis_Results.desired_conns and
num_conns) -/

/-- The two shared connection counters of Analysis_Results. -/
structure AnalysisCounters where
  desired_conns : ℤ
  num_conns : ℤ
deriving DecidableEq

/-- Small-step trace of the two counters over a run, one entry per observable
state.  Per connection dispatched in ENUMERATE mode, `analyze_connection`
increments `num_conns` (under the mutex) before returning, and only then does
the dispatch loop in `enumerate_paths_from_source` increment `desired_conns`
(under the mutex): two distinct observable intermediate states.  A connection
dispatched in PROBABILITY mode increments only `desired_conns`.  The list
holds every state the shared structure passes through, starting from the
given one. -/
def analysis_conn_states :
    AnalysisCounters → List ETopologicalMode → List AnalysisCounters
  | c, [] => [c]
  | c, .ENUMERATE :: rest =>
      c :: { c with num_conns := c.num_conns + 1 } ::
        analysis_conn_states
          ⟨c.desired_conns + 1, c.num_conns + 1⟩ rest
  | c, .PROBABILITY :: rest =>
      c :: analysis_conn_states { c with desired_conns := c.desired_conns + 1 } rest

/-- The trace restricted to connection boundaries: the states between whole
connection dispatches (both increments of a connection applied). -/
def analysis_conn_boundary_states :
    AnalysisCounters → List ETopologicalMode → List AnalysisCounters
  | c, [] => [c]
  | c, .ENUMERATE :: rest =>
      c :: analysis_conn_boundary_states ⟨c.desired_conns + 1, c.num_conns + 1⟩ rest
  | c, .PROBABILITY :: rest =>
      c :: analysis_conn_boundary_states { c with desired_conns := c.desired_conns + 1 } rest

/-- C9 (counterexample): a run consisting of a single ENUMERATE connection
passes through the state (desired_conns, num_conns) = (0, 1) — after
`analyze_connection` has incremented `num_conns` but before the caller
increments `desired_conns` — so `desired_conns ≥ num_conns` does not hold at
every point of a run. -/
theorem claim_C9_counterexample :
    ¬ (∀ s ∈ analysis_conn_states ⟨0, 0⟩ [.ENUMERATE],
        s.desired_conns ≥ s.num_conns ∧ s.num_conns ≥ 0) := by
  decide

/-- Every state of the fine-grained counter trace satisfies
`0 ≤ num_conns ≤ desired_conns + 1` when the starting state satisfies
`0 ≤ num_conns ≤ desired_conns`. -/
theorem analysis_conn_states_invariant (run : List ETopologicalMode)
    (c : AnalysisCounters) (h0 : 0 ≤ c.num_conns) (h1 : c.num_conns ≤ c.desired_conns) :
    ∀ s ∈ analysis_conn_states c run,
      0 ≤ s.num_conns ∧ s.num_conns ≤ s.desired_conns + 1 := by
  induction run generalizing c with
  | nil =>
    intro s hs
    simp only [analysis_conn_states, List.mem_singleton] at hs
    subst hs
    omega
  | cons m rest ih =>
    intro s hs
    cases m with
    | ENUMERATE =>
      simp only [analysis_conn_states, List.mem_cons] at hs
      rcases hs with rfl | rfl | hs
      · omega
      · dsimp only
        omega
      · exact ih ⟨c.desired_conns + 1, c.num_conns + 1⟩ (by dsimp only; omega)
          (by dsimp only; omega) s hs
    | PROBABILITY =>
      simp only [analysis_conn_states, List.mem_cons] at hs
      rcases hs with rfl | hs
      · omega
      · exact ih { c with desired_conns := c.desired_conns + 1 } (by dsimp only; omega)
          (by dsimp only; omega) s hs

/-- Every state of the boundary counter trace satisfies
`0 ≤ num_conns ≤ desired_conns` when the starting state does. -/
theorem analysis_conn_boundary_states_invariant (run : List ETopologicalMode)
    (c : AnalysisCounters) (h0 : 0 ≤ c.num_conns) (h1 : c.num_conns ≤ c.desired_conns) :
    ∀ s ∈ analysis_conn_boundary_states c run,
      0 ≤ s.num_conns ∧ s.num_conns ≤ s.desired_conns := by
  induction run generalizing c with
  | nil =>
    intro s hs
    simp only [analysis_conn_boundary_states, List.mem_singleton] at hs
    subst hs
    omega
  | cons m rest ih =>
    intro s hs
    cases m with
    | ENUMERATE =>
      simp only [analysis_conn_boundary_states, List.mem_cons] at hs
      rcases hs with rfl | hs
      · omega
      · exact ih ⟨c.desired_conns + 1, c.num_conns + 1⟩ (by dsimp only; omega)
          (by dsimp only; omega) s hs
    | PROBABILITY =>
      simp only [analysis_conn_boundary_states, List.mem_cons] at hs
      rcases hs with rfl | hs
      · omega
      · exact ih { c with desired_conns := c.desired_conns + 1 } (by dsimp only; omega)
          (by dsimp only; omega) s hs

/-- C9 (amended): starting from (0, 0), every state of a run satisfies
`num_conns ≥ 0` and `num_conns ≤ desired_conns + 1` — `num_conns` may
transiently exceed `desired_conns` by one per in-flight ENUMERATE connection
(one, in this single-thread trace), because `analyze_connection` increments
`num_conns` before the dispatcher increments `desired_conns` — and at every
connection boundary the claimed `desired_conns ≥ num_conns ≥ 0` does hold. -/
theorem claim_C9_amended (run : List ETopologicalMode) :
    (∀ s ∈ analysis_conn_states ⟨0, 0⟩ run,
        0 ≤ s.num_conns ∧ s.num_conns ≤ s.desired_conns + 1) ∧
    (∀ s ∈ analysis_conn_boundary_states ⟨0, 0⟩ run,
        0 ≤ s.num_conns ∧ s.num_conns ≤ s.desired_conns) :=
  ⟨analysis_conn_states_invariant run ⟨0, 0⟩ (by norm_num) (by norm_num),
   analysis_conn_boundary_states_invariant run ⟨0, 0⟩ (by norm_num) (by norm_num)⟩

/-! ## Early return for unreachable pairs (enumerate_connection_paths and
estimate_connection_probability) -/

/-- Embedding of the guarded body of `enumerate_connection_paths`
(analysis_main.cpp).  After the distance passes and the weight tightening the
entire body — seeding the sink bucket, the backward traversal, computing the
scaled start, seeding the source bucket and the forward traversal that adds
node demands — runs only under `max_path_weight > 0 && min_dist > 0`.  `St`
is the whole mutable per-thread state (buckets, demands, visited lists) and
`enumeration_traversals` the externally-implemented body
(do_topological_traversal and the enumerate callbacks). -/
def enumerate_connection_paths {St : Type} (adjusted_max_path_weight min_dist : ℤ)
    (enumeration_traversals : St → St) (state : St) : St :=
  if adjusted_max_path_weight > 0 ∧ min_dist > 0 then
    enumeration_traversals state
  else
    state

/-- C10: for a pair whose adjusted max path weight is ≤ 0 or whose
source–sink distance is ≤ 0, `estimate_connection_probability` returns
exactly 0 — for every probability model and with no error raised — and
`enumerate_connection_paths` performs no traversal and adds no demand
(the state is returned unchanged for every possible traversal body). -/
theorem claim_C10 {St : Type} (adjusted_max_path_weight min_dist : ℤ)
    (enumeration_traversals : St → St) (state : St)
    (mode : EProbabilityMode) (use_routing_node_demand : Option ℚ)
    (model_result : EProbabilityMode → ℚ)
    (hfail : adjusted_max_path_weight ≤ 0 ∨ min_dist ≤ 0) :
    estimate_connection_probability mode use_routing_node_demand
        adjusted_max_path_weight min_dist model_result = .ok 0 ∧
    enumerate_connection_paths adjusted_max_path_weight min_dist
        enumeration_traversals state = state := by
  have hng : ¬ (adjusted_max_path_weight > 0 ∧ min_dist > 0) := by
    intro hc
    rcases hfail with h | h <;> omega
  constructor
  · unfold estimate_connection_probability
    rw [if_neg hng]
  · unfold enumerate_connection_paths
    rw [if_neg hng]

/-- C10 (witness): with adjusted max path weight 0 (min_dist 5) the
probability estimate is exactly 0 and the enumeration state (here an integer)
is unchanged even by a traversal body that would increment it. -/
theorem claim_C10_witness :
    estimate_connection_probability .PROPAGATE none 0 5 (fun _ => 2) = .ok 0 ∧
    enumerate_connection_paths 0 5 (fun s : ℤ => s + 1) 7 = 7 :=
  claim_C10 0 5 (fun s : ℤ => s + 1) 7 .PROPAGATE none (fun _ => 2)
    (Or.inl (by norm_num))
